import Mathlib

/-!
# vyf-lib-logger: configuration resolution and logger construction

A shallow embedding of `logger.go`.  The two functions of the file, `readConfig`
and `NewLogger`, are written against an explicit environment that supplies what
the program calls outside of its own file (`filepath.Dir`, `ioutil.ReadFile`,
`os.Stat`, `yaml.Unmarshal`, `build`, `(*zap.Logger).Sugar`).  Every call with an
observable effect is recorded in a trace, and `os.Exit` ends the run.
-/

set_option maxRecDepth 4000

namespace Logger

/-- The `config` struct of `logger.go`: the settings of the zap logger and of the
log rotation.  The two field types (`zap.Config`, `lumberjack.Logger`) come from
libraries and are type parameters. -/
structure config (Z R : Type) where
  ZapConfig : Z
  LogRotate : R
  deriving DecidableEq, Repr

/-- Base name of the mandatory configuration file. -/
def defaultFileName : String := "config.logger"

/-- Base name of the optional override file. -/
def overrideFileName : String := "config.logger.override"

/-- The two standard output channels of a process. -/
inductive Channel where
  | stdout
  | stderr
  deriving DecidableEq, Repr

/-- Observable operations of a run, in program order.  `B` is the type of file
contents (`[]byte`). -/
inductive Event (B : Type) where
  | readFile (path : String)
  | stat (path : String)
  | unmarshal (doc : B)
  | write (ch : Channel) (msg : String)
  | build
  | sync
  | exit (code : Int)
  deriving DecidableEq, Repr

/-- How a call ends: it returns a value to its caller, or the process has been
terminated by `os.Exit` with the given status. -/
inductive Outcome (α : Type) where
  | returned (a : α)
  | exited (code : Int)
  deriving DecidableEq, Repr

/-- A run: the operations performed and how the call ended. -/
structure Run (B α : Type) where
  trace : List (Event B)
  outcome : Outcome α
  deriving DecidableEq, Repr

/-- A call that performs nothing and returns `a`. -/
def Run.ret {B α : Type} (a : α) : Run B α := ⟨[], Outcome.returned a⟩

/-- Sequencing: the continuation runs only when the first part returned; after
`os.Exit` nothing more happens. -/
def Run.andThen {B α β : Type} (r : Run B α) (f : α → Run B β) : Run B β :=
  match r.outcome with
  | Outcome.returned a => ⟨r.trace ++ (f a).trace, (f a).outcome⟩
  | Outcome.exited c => ⟨r.trace, Outcome.exited c⟩

instance {B : Type} : Monad (Run B) where
  pure := Run.ret
  bind := Run.andThen

/-- What `logger.go` calls outside of its own file.  Errors are represented by
their message (`err.Error()`), and the file system does not change during a run:
reading or checking a path twice gives the same answer.

* `filepathDir` is `filepath.Dir`;
* `readFile` is `ioutil.ReadFile`;
* `stat` is `os.Stat`, of which the program only inspects the error;
* `unmarshal doc v` is `yaml.Unmarshal(doc, &loggerConfig)` where `v` is the
  current value of the pointer `loggerConfig` (`none` is the nil pointer), giving
  the value of `loggerConfig` afterwards;
* `build` is the package function `build`, `sugar` is `(*zap.Logger).Sugar`. -/
structure Env (B Z R ZL SL : Type) where
  filepathDir : String → String
  readFile : String → Except String B
  stat : String → Except String Unit
  unmarshal : B → Option (config Z R) → Except String (Option (config Z R))
  build : Option (config Z R) → Except String ZL
  sugar : ZL → SL

variable {B Z R ZL SL : Type}

/-- The call `fmt.Printf(...)` with the formatted message `msg`: writes to the
standard output. -/
def fmtPrintf (msg : String) : Run B Unit :=
  ⟨[Event.write Channel.stdout msg], Outcome.returned ()⟩

/-- The call `os.Exit(code)`. -/
def osExit {α : Type} (code : Int) : Run B α :=
  ⟨[Event.exit code], Outcome.exited code⟩

/-- The call `ioutil.ReadFile(path)`. -/
def ioutilReadFile (env : Env B Z R ZL SL) (path : String) : Run B (Except String B) :=
  ⟨[Event.readFile path], Outcome.returned (env.readFile path)⟩

/-- The call `os.Stat(path)`. -/
def osStat (env : Env B Z R ZL SL) (path : String) : Run B (Except String Unit) :=
  ⟨[Event.stat path], Outcome.returned (env.stat path)⟩

/-- The call `yaml.Unmarshal(doc, &loggerConfig)`. -/
def yamlUnmarshal (env : Env B Z R ZL SL) (doc : B) (loggerConfig : Option (config Z R)) :
    Run B (Except String (Option (config Z R))) :=
  ⟨[Event.unmarshal doc], Outcome.returned (env.unmarshal doc loggerConfig)⟩

/-- The path `fmt.Sprintf("%s/%s%s", configDir, defaultFileName, configType)`. -/
def defaultPath (env : Env B Z R ZL SL) (configPath : String) : String :=
  env.filepathDir configPath ++ "/" ++ defaultFileName ++ ".yml"

/-- The path `fmt.Sprintf("%s/%s%s", configDir, overrideFileName, configType)`. -/
def overridePath (env : Env B Z R ZL SL) (configPath : String) : String :=
  env.filepathDir configPath ++ "/" ++ overrideFileName ++ ".yml"

/-- The function `readConfig` of `logger.go`. -/
def readConfig (env : Env B Z R ZL SL) (configPath : String) : Run B (Option (config Z R)) := do
  let configType := ".yml"
  let configDir := env.filepathDir configPath
  let configFilePath := configDir ++ "/" ++ defaultFileName ++ configType
  match ← ioutilReadFile env configFilePath with
  | Except.error err =>
    fmtPrintf ("failed to read default " ++ defaultFileName ++ " configuration. error: " ++ err)
    osExit 2
  | Except.ok configYamlFile =>
    match ← yamlUnmarshal env configYamlFile none with
    | Except.error err =>
      fmtPrintf ("unable to decode config. error: " ++ err)
      osExit 2
    | Except.ok loggerConfig =>
      let configOverrideFilePath := configDir ++ "/" ++ overrideFileName ++ configType
      let configFilePath ← (do
        match ← osStat env configOverrideFilePath with
        | Except.ok _ => pure configOverrideFilePath
        | Except.error _ => pure configFilePath)
      match ← ioutilReadFile env configFilePath with
      | Except.error err =>
        fmtPrintf ("failed to read default " ++ defaultFileName ++ " configuration. error: " ++ err)
        osExit 2
      | Except.ok configYamlFile =>
        match ← yamlUnmarshal env configYamlFile loggerConfig with
        | Except.error err =>
          fmtPrintf ("unable to decode config. error: " ++ err)
          osExit 2
        | Except.ok loggerConfig => pure loggerConfig

/-- The call `build(loggerConfig)`. -/
def callBuild (env : Env B Z R ZL SL) (loggerConfig : Option (config Z R)) :
    Run B (Except String ZL) :=
  ⟨[Event.build], Outcome.returned (env.build loggerConfig)⟩

/-- The call `zapLogger.Sync()`, whose result the program discards. -/
def zapSync : Run B Unit :=
  ⟨[Event.sync], Outcome.returned ()⟩

/-- The function `NewLogger` of `logger.go`. -/
def NewLogger (env : Env B Z R ZL SL) (configPath : String) : Run B SL := do
  let loggerConfig ← readConfig env configPath
  match ← callBuild env loggerConfig with
  | Except.error err =>
    fmtPrintf ("Failed to compose zap logger : " ++ err)
    osExit 2
  | Except.ok zapLogger =>
    let logger := env.sugar zapLogger
    zapSync
    pure logger

/-! ## An example environment

Concrete values for the parameters, used to evaluate the program on explicit
inputs: a directory given as a table of files, a few YAML documents, and the
value each of them decodes to. -/

/-- Some of the fields of `zap.Config`. -/
structure ExampleZap where
  level : String
  encoding : String
  outputPaths : List String
  deriving DecidableEq, Repr

/-- The exported fields of `lumberjack.Logger` without `localtime`. -/
structure ExampleRotate where
  filename : String
  maxsize : Nat
  maxage : Nat
  maxbackups : Nat
  compress : Bool
  deriving DecidableEq, Repr

/-- The configuration type of the example. -/
abbrev ExampleConfig : Type := config ExampleZap ExampleRotate

/-- The zero value of the example configuration. -/
def zeroConfig : ExampleConfig :=
  ⟨⟨"", "", []⟩, ⟨"", 0, 0, 0, false⟩⟩

/-- A complete default document. -/
def baseDoc : String :=
  "zap_config:\n  level: info\n  encoding: json\n  outputPaths: [stdout]\nlog_rotate:\n  filename: app.log\n  maxsize: 10\n  maxage: 7\n  maxbackups: 3\n  compress: true\n"

/-- The value `baseDoc` decodes to. -/
def baseConfig : ExampleConfig :=
  ⟨⟨"info", "json", ["stdout"]⟩, ⟨"app.log", 10, 7, 3, true⟩⟩

/-- An override document that sets the level and nothing else. -/
def levelDoc : String := "zap_config:\n  level: debug\n"

/-- An override document that sets the encoding and nothing else, to a name for
which no encoder is registered. -/
def xmlDoc : String := "zap_config:\n  encoding: xml\n"

/-- A document that is not well-formed YAML. -/
def malformedDoc : String := "zap_config: ["

/-- Decoding of the documents above onto the current value of `loggerConfig`; a
nil pointer is first replaced by a pointer to the zero value. -/
def exampleUnmarshal (doc : String) (v : Option ExampleConfig) :
    Except String (Option ExampleConfig) :=
  let c := v.getD zeroConfig
  if doc = baseDoc then Except.ok (some baseConfig)
  else if doc = levelDoc then
    Except.ok (some ⟨⟨"debug", c.ZapConfig.encoding, c.ZapConfig.outputPaths⟩, c.LogRotate⟩)
  else if doc = xmlDoc then
    Except.ok (some ⟨⟨c.ZapConfig.level, "xml", c.ZapConfig.outputPaths⟩, c.LogRotate⟩)
  else Except.error "yaml: line 1: did not find expected node content"

/-- An example `build`: the logger is described by its level, and only the
encodings `json` and `console` are known. -/
def exampleBuild (v : Option ExampleConfig) : Except String String :=
  match v with
  | none => Except.error "no configuration"
  | some c =>
    if c.ZapConfig.encoding = "json" ∨ c.ZapConfig.encoding = "console" then
      Except.ok c.ZapConfig.level
    else Except.error ("no encoder registered for name " ++ c.ZapConfig.encoding)

/-- Characters of a path up to its last separator, trailing separators removed. -/
def dirChars (path : List Char) : List Char :=
  ((path.reverse.dropWhile (fun ch => ch != '/')).dropWhile (fun ch => ch == '/')).reverse

/-- The value of `filepath.Dir` on a clean path. -/
def exampleDir (path : String) : String :=
  let d := dirChars path.data
  if d = [] then (if '/' ∈ path.data then "/" else ".") else String.mk d

/-- The environment over a directory tree given as a table of files. -/
def exampleEnv (files : List (String × String)) :
    Env String ExampleZap ExampleRotate String String where
  filepathDir := exampleDir
  readFile := fun path =>
    match files.lookup path with
    | some doc => Except.ok doc
    | none => Except.error ("open " ++ path ++ ": no such file or directory")
  stat := fun path =>
    match files.lookup path with
    | some _ => Except.ok ()
    | none => Except.error ("stat " ++ path ++ ": no such file or directory")
  unmarshal := exampleUnmarshal
  build := exampleBuild
  sugar := fun z => z

/-- A directory with the default file only. -/
def filesDefaultOnly : List (String × String) :=
  [("/etc/app/config.logger.yml", baseDoc)]

/-- A directory with the default file and a level-only override. -/
def filesWithOverride : List (String × String) :=
  [("/etc/app/config.logger.yml", baseDoc), ("/etc/app/config.logger.override.yml", levelDoc)]

/-- Explicit form of a run of `readConfig`, one line per way through the function. -/
def readConfigRun (env : Env B Z R ZL SL) (configPath : String) : Run B (Option (config Z R)) :=
  let dp := defaultPath env configPath
  let op := overridePath env configPath
  let readMsg (err : String) := "failed to read default config.logger configuration. error: " ++ err
  let decodeMsg (err : String) := "unable to decode config. error: " ++ err
  match env.readFile dp with
  | Except.error err =>
    ⟨[Event.readFile dp, Event.write Channel.stdout (readMsg err), Event.exit 2], Outcome.exited 2⟩
  | Except.ok d =>
    match env.unmarshal d none with
    | Except.error err =>
      ⟨[Event.readFile dp, Event.unmarshal d, Event.write Channel.stdout (decodeMsg err),
        Event.exit 2], Outcome.exited 2⟩
    | Except.ok c1 =>
      let p2 := match env.stat op with
        | Except.ok _ => op
        | Except.error _ => dp
      match env.readFile p2 with
      | Except.error err =>
        ⟨[Event.readFile dp, Event.unmarshal d, Event.stat op, Event.readFile p2,
          Event.write Channel.stdout (readMsg err), Event.exit 2], Outcome.exited 2⟩
      | Except.ok d2 =>
        match env.unmarshal d2 c1 with
        | Except.error err =>
          ⟨[Event.readFile dp, Event.unmarshal d, Event.stat op, Event.readFile p2,
            Event.unmarshal d2, Event.write Channel.stdout (decodeMsg err), Event.exit 2],
            Outcome.exited 2⟩
        | Except.ok c2 =>
          ⟨[Event.readFile dp, Event.unmarshal d, Event.stat op, Event.readFile p2,
            Event.unmarshal d2], Outcome.returned c2⟩

/-- Explicit form of a run of `NewLogger`, in terms of the run of `readConfig`. -/
def newLoggerRun (env : Env B Z R ZL SL) (configPath : String) : Run B SL :=
  let rc := readConfig env configPath
  match rc.outcome with
  | Outcome.exited code => ⟨rc.trace, Outcome.exited code⟩
  | Outcome.returned loggerConfig =>
    match env.build loggerConfig with
    | Except.error err =>
      ⟨rc.trace ++ [Event.build,
        Event.write Channel.stdout ("Failed to compose zap logger : " ++ err), Event.exit 2],
        Outcome.exited 2⟩
    | Except.ok zapLogger =>
      ⟨rc.trace ++ [Event.build, Event.sync], Outcome.returned (env.sugar zapLogger)⟩

/-! ## Properties of traces and decoders used in the statements -/

/-- The document `doc` sets the field `f` to `v`: whatever value it is decoded onto,
the field has the value `v` afterwards. -/
def DocSets (env : Env B Z R ZL SL) (doc : B) {α : Type} (f : Option (config Z R) → α)
    (v : α) : Prop :=
  ∀ c c', env.unmarshal doc c = Except.ok c' → f c' = v

/-- The document `doc` does not mention the field `f`: whatever value it is decoded
onto, the field is the same before and after. -/
def DocKeeps (env : Env B Z R ZL SL) (doc : B) {α : Type} (f : Option (config Z R) → α) :
    Prop :=
  ∀ c c', env.unmarshal doc c = Except.ok c' → f c' = f c

/-- Number of reads of the file `path` in a trace. -/
def readCount (path : String) (t : List (Event B)) : Nat :=
  (t.filter (fun ev => match ev with
    | Event.readFile q => q == path
    | _ => false)).length

/-- Number of decodes in a trace. -/
def decodeCount (t : List (Event B)) : Nat :=
  (t.filter (fun ev => match ev with
    | Event.unmarshal _ => true
    | _ => false)).length

/-- The part of a trace that follows the first existence check of `path`. -/
def afterStat (path : String) (t : List (Event B)) : List (Event B) :=
  (t.dropWhile (fun ev => match ev with
    | Event.stat q => !(q == path)
    | _ => true)).drop 1

/-- The event is a file read or a decode. -/
def isReadOrDecode (ev : Event B) : Bool :=
  match ev with
  | Event.readFile _ => true
  | Event.unmarshal _ => true
  | _ => false

/-- The short-circuit of the specification: nothing is read or decoded after the
existence check of the override path, and the mandatory file is read once and
decoded once. -/
def ShortCircuits (env : Env B Z R ZL SL) (configPath : String) : Prop :=
  ((afterStat (overridePath env configPath) (readConfig env configPath).trace).all
      (fun ev => !isReadOrDecode ev) = true) ∧
    readCount (defaultPath env configPath) (readConfig env configPath).trace = 1 ∧
    decodeCount (readConfig env configPath).trace = 1

/-- The diagnostics policy of the specification for a run of `NewLogger`: when the
process is terminated, a message has been written to the standard error and
nothing to the standard output. -/
def DiagnosticsOnStderr (env : Env B Z R ZL SL) (configPath : String) : Prop :=
  ∀ code, (NewLogger env configPath).outcome = Outcome.exited code →
    (∃ msg, Event.write Channel.stderr msg ∈ (NewLogger env configPath).trace) ∧
    (∀ msg, Event.write Channel.stdout msg ∉ (NewLogger env configPath).trace)

/-- A directory without any file. -/
def filesNone : List (String × String) := []

/-- A directory whose default file is malformed, next to a valid override. -/
def filesMalformedDefault : List (String × String) :=
  [("/etc/app/config.logger.yml", malformedDoc), ("/etc/app/config.logger.override.yml", levelDoc)]

/-- A directory whose override is malformed. -/
def filesMalformedOverride : List (String × String) :=
  [("/etc/app/config.logger.yml", baseDoc), ("/etc/app/config.logger.override.yml", malformedDoc)]

/-- A directory whose override selects an encoding that `build` rejects. -/
def filesXmlOverride : List (String × String) :=
  [("/etc/app/config.logger.yml", baseDoc), ("/etc/app/config.logger.override.yml", xmlDoc)]

/-- The value of the default document with the level set to `debug`. -/
def debugConfig : ExampleConfig :=
  ⟨⟨"debug", "json", ["stdout"]⟩, ⟨"app.log", 10, 7, 3, true⟩⟩

theorem readConfig_eq_run (env : Env B Z R ZL SL) (configPath : String) :
    readConfig env configPath = readConfigRun env configPath := by
  unfold readConfig readConfigRun
  simp only [bind, pure, Run.andThen, Run.ret, ioutilReadFile, yamlUnmarshal, osStat, fmtPrintf,
    osExit, defaultPath, overridePath, defaultFileName, overrideFileName]
  cases h1 : env.readFile (env.filepathDir configPath ++ "/" ++ "config.logger" ++ ".yml") with
  | error e => simp
  | ok d =>
    cases h2 : env.unmarshal d none with
    | error e => simp [h2]
    | ok c1 =>
      cases h3 : env.stat (env.filepathDir configPath ++ "/" ++ "config.logger.override" ++ ".yml") with
      | error e3 =>
        cases h5 : env.unmarshal d c1 <;> simp [h1, h2, h3, h5]
      | ok u =>
        cases h4 : env.readFile (env.filepathDir configPath ++ "/" ++ "config.logger.override" ++ ".yml") with
        | error e => simp [h1, h2, h3, h4]
        | ok d2 => cases h5 : env.unmarshal d2 c1 <;> simp [h1, h2, h3, h4, h5]

theorem NewLogger_eq_run (env : Env B Z R ZL SL) (configPath : String) :
    NewLogger env configPath = newLoggerRun env configPath := by
  unfold NewLogger newLoggerRun
  simp only [bind, pure, Run.andThen, Run.ret, callBuild, zapSync, fmtPrintf, osExit]
  cases h1 : (readConfig env configPath).outcome with
  | exited c => simp
  | returned cfg => cases h2 : env.build cfg <;> simp [h2]

theorem defaultPath_eq (env : Env B Z R ZL SL) (configPath : String) :
    defaultPath env configPath = env.filepathDir configPath ++ "/config.logger.yml" := by
  simp only [defaultPath, defaultFileName, String.append_assoc]
  rfl

theorem overridePath_eq (env : Env B Z R ZL SL) (configPath : String) :
    overridePath env configPath = env.filepathDir configPath ++ "/config.logger.override.yml" := by
  simp only [overridePath, overrideFileName, String.append_assoc]
  rfl

theorem string_append_left_cancel (a b c : String) (h : a ++ b = a ++ c) : b = c := by
  have h2 : (a ++ b).data = (a ++ c).data := by rw [h]
  simp only [String.data_append] at h2
  exact String.ext (List.append_cancel_left h2)

theorem defaultPath_ne_overridePath (env : Env B Z R ZL SL) (configPath : String) :
    defaultPath env configPath ≠ overridePath env configPath := by
  rw [defaultPath_eq, overridePath_eq]
  intro h
  have h2 := string_append_left_cancel _ _ _ h
  exact absurd h2 (by decide)

theorem exit_of_default_read_error (env : Env B Z R ZL SL) (configPath : String)
    (e : String) (h1 : env.readFile (defaultPath env configPath) = Except.error e) :
    (NewLogger env configPath).outcome = Outcome.exited 2 := by
  rw [NewLogger_eq_run, newLoggerRun, readConfig_eq_run]
  simp [readConfigRun, h1]

theorem readConfig_exit_shape (env : Env B Z R ZL SL) (configPath : String) (code : Int)
    (h : (readConfig env configPath).outcome = Outcome.exited code) :
    code = 2 ∧ ∃ pre msg, (readConfig env configPath).trace =
      pre ++ [Event.write Channel.stdout msg, Event.exit 2] := by
  rw [readConfig_eq_run] at h ⊢
  simp only [readConfigRun] at h ⊢
  split at h
  · exact ⟨(Outcome.exited.inj h).symm, [_], _, rfl⟩
  · split at h
    · exact ⟨(Outcome.exited.inj h).symm, [_, _], _, rfl⟩
    · split at h
      · exact ⟨(Outcome.exited.inj h).symm, [_, _, _, _], _, rfl⟩
      · split at h
        · exact ⟨(Outcome.exited.inj h).symm, [_, _, _, _, _], _, rfl⟩
        · exact Outcome.noConfusion h

theorem readConfig_no_stderr (env : Env B Z R ZL SL) (configPath : String) (msg : String) :
    Event.write Channel.stderr msg ∉ (readConfig env configPath).trace := by
  rw [readConfig_eq_run]
  simp only [readConfigRun]
  split
  · simp
  · split
    · simp
    · split
      · simp
      · split <;> simp

/-! ## The claims -/

/-- C1. Override overlay: when the directory holds both files, both readable and
decodable, `readConfig` returns the parse of the default document with the override
document decoded on top of that same value.  Hence every field the override document
sets has the override's value, every field it does not mention keeps the value parsed
from the default, and when the override document acts as an update of the value (such
as setting only the level) the result is that update of the default's parse. -/
theorem readConfig_override_overlay (env : Env B Z R ZL SL) (configPath : String)
    (d o : B) (c1 c2 : Option (config Z R)) (u : Unit)
    (h1 : env.readFile (defaultPath env configPath) = Except.ok d)
    (h2 : env.unmarshal d none = Except.ok c1)
    (h3 : env.stat (overridePath env configPath) = Except.ok u)
    (h4 : env.readFile (overridePath env configPath) = Except.ok o)
    (h5 : env.unmarshal o c1 = Except.ok c2) :
    (readConfig env configPath).outcome = Outcome.returned c2 ∧
    (∀ (α : Type) (f : Option (config Z R) → α) (v : α), DocSets env o f v → f c2 = v) ∧
    (∀ (α : Type) (f : Option (config Z R) → α), DocKeeps env o f → f c2 = f c1) ∧
    (∀ upd : Option (config Z R) → Option (config Z R),
      (∀ v, env.unmarshal o v = Except.ok (upd v)) → c2 = upd c1) := by
  refine ⟨?_, ?_, ?_, ?_⟩
  · rw [readConfig_eq_run]
    simp [readConfigRun, h1, h2, h3, h4, h5]
  · intro α f v hs
    exact hs c1 c2 h5
  · intro α f hk
    exact hk c1 c2 h5
  · intro upd hu
    have h := hu c1
    rw [h5] at h
    exact Except.ok.inj h

/-- Witness of C1: a default file and an override that sets only the level to `debug`;
the result is the default's content with the level `debug`. -/
theorem readConfig_override_overlay_witness :
    (readConfig (exampleEnv filesWithOverride) "/etc/app/logger.yml").outcome =
        Outcome.returned (some debugConfig) ∧
      (some debugConfig).map (fun c => c.ZapConfig.level) = some "debug" ∧
      (debugConfig.ZapConfig.encoding, debugConfig.ZapConfig.outputPaths, debugConfig.LogRotate) =
        (baseConfig.ZapConfig.encoding, baseConfig.ZapConfig.outputPaths, baseConfig.LogRotate) :=
  have h := readConfig_override_overlay (exampleEnv filesWithOverride) "/etc/app/logger.yml"
    baseDoc levelDoc (some baseConfig) (some debugConfig) () rfl rfl rfl rfl rfl
  ⟨h.1,
    h.2.1 _ (fun v => v.map (fun c => c.ZapConfig.level)) (some "debug") (by
      intro c c' hc
      simp only [exampleEnv, exampleUnmarshal] at hc
      rw [if_neg (by decide), if_true] at hc
      rw [← Except.ok.inj hc]
      rfl),
    h.2.2.1 _ (fun v => ((v.getD zeroConfig).ZapConfig.encoding,
        (v.getD zeroConfig).ZapConfig.outputPaths, (v.getD zeroConfig).LogRotate)) (by
      intro c c' hc
      simp only [exampleEnv, exampleUnmarshal] at hc
      rw [if_neg (by decide), if_true] at hc
      rw [← Except.ok.inj hc]
      rfl)⟩

/-- Counterexample of C3: with the default file only, the existence check of the
override fails, and `readConfig` then reads the default file again and decodes it
again: two reads and two decodes. -/
theorem readConfig_no_short_circuit :
    (exampleEnv filesDefaultOnly).stat
        (overridePath (exampleEnv filesDefaultOnly) "/etc/app/logger.yml") =
      Except.error "stat /etc/app/config.logger.override.yml: no such file or directory" ∧
    (readConfig (exampleEnv filesDefaultOnly) "/etc/app/logger.yml").trace =
      [Event.readFile "/etc/app/config.logger.yml", Event.unmarshal baseDoc,
        Event.stat "/etc/app/config.logger.override.yml",
        Event.readFile "/etc/app/config.logger.yml", Event.unmarshal baseDoc] ∧
    ¬ ShortCircuits (exampleEnv filesDefaultOnly) "/etc/app/logger.yml" := by
  refine ⟨rfl, rfl, ?_⟩
  intro h
  have h2 := h.2.2
  have ht : (readConfig (exampleEnv filesDefaultOnly) "/etc/app/logger.yml").trace =
      [Event.readFile "/etc/app/config.logger.yml", Event.unmarshal baseDoc,
        Event.stat "/etc/app/config.logger.override.yml",
        Event.readFile "/etc/app/config.logger.yml", Event.unmarshal baseDoc] := rfl
  rw [ht] at h2
  exact absurd h2 (by decide)

/-- C3, amended. When the existence check of the override fails (after a successful
read and decode of the default file), `readConfig` reads the default file a second
time and decodes it a second time, onto the value of the first parse; it returns the
result of that second decode, or terminates with status 2 when that decode fails.
The default file is read twice and decoded twice, and the override is only checked
for existence. -/
theorem readConfig_override_absent_run (env : Env B Z R ZL SL) (configPath : String)
    (d : B) (c1 : Option (config Z R)) (e : String)
    (h1 : env.readFile (defaultPath env configPath) = Except.ok d)
    (h2 : env.unmarshal d none = Except.ok c1)
    (h3 : env.stat (overridePath env configPath) = Except.error e) :
    readConfig env configPath =
      match env.unmarshal d c1 with
      | Except.ok c2 =>
        ⟨[Event.readFile (defaultPath env configPath), Event.unmarshal d,
          Event.stat (overridePath env configPath),
          Event.readFile (defaultPath env configPath), Event.unmarshal d],
          Outcome.returned c2⟩
      | Except.error err =>
        ⟨[Event.readFile (defaultPath env configPath), Event.unmarshal d,
          Event.stat (overridePath env configPath),
          Event.readFile (defaultPath env configPath), Event.unmarshal d,
          Event.write Channel.stdout ("unable to decode config. error: " ++ err), Event.exit 2],
          Outcome.exited 2⟩ := by
  rw [readConfig_eq_run]
  cases h5 : env.unmarshal d c1 <;> simp [readConfigRun, h1, h2, h3, h5]

/-- Witness of C3, amended: a directory with the default file only. -/
theorem readConfig_override_absent_run_witness :
    readConfig (exampleEnv filesDefaultOnly) "/etc/app/logger.yml" =
      ⟨[Event.readFile "/etc/app/config.logger.yml", Event.unmarshal baseDoc,
        Event.stat "/etc/app/config.logger.override.yml",
        Event.readFile "/etc/app/config.logger.yml", Event.unmarshal baseDoc],
        Outcome.returned (some baseConfig)⟩ :=
  readConfig_override_absent_run (exampleEnv filesDefaultOnly) "/etc/app/logger.yml" baseDoc
    (some baseConfig) "stat /etc/app/config.logger.override.yml: no such file or directory"
    rfl rfl rfl

/-- C4. No read of an absent override: whenever the existence check of the override
path does not succeed, no read of the override path occurs in the run of
`readConfig`; the existence check is the only operation on that path. -/
theorem readConfig_never_reads_absent_override (env : Env B Z R ZL SL) (configPath : String)
    (e : String) (h3 : env.stat (overridePath env configPath) = Except.error e) :
    Event.readFile (overridePath env configPath) ∉ (readConfig env configPath).trace ∧
    readCount (overridePath env configPath) (readConfig env configPath).trace = 0 := by
  have hne := defaultPath_ne_overridePath env configPath
  have hne2 : (defaultPath env configPath == overridePath env configPath) = false := by
    simpa using hne
  rw [readConfig_eq_run]
  simp only [readConfigRun, h3]
  cases h1 : env.readFile (defaultPath env configPath) with
  | error e1 => simp [readCount, hne2, Ne.symm hne]
  | ok d =>
    cases h2 : env.unmarshal d none with
    | error e2 => simp [readCount, h1, h2, hne2, Ne.symm hne]
    | ok c1 =>
      cases h5 : env.unmarshal d c1 <;> simp [readCount, h1, h2, h5, hne2, Ne.symm hne]

/-- Witness of C4: a directory with the default file only. -/
theorem readConfig_never_reads_absent_override_witness :
    Event.readFile "/etc/app/config.logger.override.yml" ∉
      (readConfig (exampleEnv filesDefaultOnly) "/etc/app/logger.yml").trace :=
  (readConfig_never_reads_absent_override (exampleEnv filesDefaultOnly) "/etc/app/logger.yml"
    "stat /etc/app/config.logger.override.yml: no such file or directory" rfl).1

/-- C5. File locations: `readConfig` first reads the file at `filepath.Dir` of the hint
followed by `/config.logger.yml`; once that file is read and decoded, its next
operation is the existence check of that directory followed by
`/config.logger.override.yml`, and when the check succeeds the file read next is the
one at that path.  No other path is checked and no other file is read.  The file name
of the hint is ignored: two hints with the same directory give the same run. -/
theorem readConfig_file_locations (env : Env B Z R ZL SL) (configPath : String) :
    defaultPath env configPath = env.filepathDir configPath ++ "/config.logger.yml" ∧
    overridePath env configPath = env.filepathDir configPath ++ "/config.logger.override.yml" ∧
    (readConfig env configPath).trace.head? =
      some (Event.readFile (env.filepathDir configPath ++ "/config.logger.yml")) ∧
    (∀ path, Event.stat path ∈ (readConfig env configPath).trace →
      path = env.filepathDir configPath ++ "/config.logger.override.yml") ∧
    (∀ path, Event.readFile path ∈ (readConfig env configPath).trace →
      path = env.filepathDir configPath ++ "/config.logger.yml" ∨
      path = env.filepathDir configPath ++ "/config.logger.override.yml") ∧
    (∀ d c1, env.readFile (env.filepathDir configPath ++ "/config.logger.yml") = Except.ok d →
      env.unmarshal d none = Except.ok c1 →
      (readConfig env configPath).trace.take 3 =
        [Event.readFile (env.filepathDir configPath ++ "/config.logger.yml"), Event.unmarshal d,
          Event.stat (env.filepathDir configPath ++ "/config.logger.override.yml")] ∧
      Event.stat (env.filepathDir configPath ++ "/config.logger.override.yml") ∈
        (readConfig env configPath).trace ∧
      (∀ u, env.stat (env.filepathDir configPath ++ "/config.logger.override.yml") =
          Except.ok u →
        (readConfig env configPath).trace.take 4 =
          [Event.readFile (env.filepathDir configPath ++ "/config.logger.yml"),
            Event.unmarshal d,
            Event.stat (env.filepathDir configPath ++ "/config.logger.override.yml"),
            Event.readFile (env.filepathDir configPath ++ "/config.logger.override.yml")])) ∧
    (∀ other, env.filepathDir other = env.filepathDir configPath →
      readConfig env other = readConfig env configPath) := by
  have hd := defaultPath_eq env configPath
  have ho := overridePath_eq env configPath
  refine ⟨hd, ho, ?_, ?_, ?_, ?_, ?_⟩
  · rw [readConfig_eq_run, ← hd]
    simp only [readConfigRun]
    split
    · rfl
    · split
      · rfl
      · split
        · rfl
        · split <;> rfl
  · intro path
    rw [readConfig_eq_run, ← ho]
    simp only [readConfigRun]
    split
    · simp
    · split
      · simp
      · split
        · simp
        · split <;> simp
  · intro path
    rw [readConfig_eq_run, ← hd, ← ho]
    simp only [readConfigRun]
    split
    · simp; tauto
    · split
      · simp; tauto
      · cases env.stat (overridePath env configPath) with
        | error e3 =>
          simp only
          split
          · simp; tauto
          · split <;> simp <;> tauto
        | ok u =>
          simp only
          split
          · simp
          · split <;> simp
  · intro d c1
    rw [← hd, ← ho]
    intro h1 h2
    have h3 : (readConfig env configPath).trace.take 3 =
        [Event.readFile (defaultPath env configPath), Event.unmarshal d,
          Event.stat (overridePath env configPath)] := by
      rw [readConfig_eq_run]
      simp only [readConfigRun, h1, h2]
      split
      · rfl
      · split <;> rfl
    refine ⟨h3, ?_, ?_⟩
    · have hm : Event.stat (overridePath env configPath) ∈
          (readConfig env configPath).trace.take 3 := by
        rw [h3]
        simp
      exact List.mem_of_mem_take hm
    · intro u hs
      rw [readConfig_eq_run]
      simp only [readConfigRun, h1, h2, hs]
      split
      · rfl
      · split <;> rfl
  · intro other h
    unfold readConfig
    rw [h]

/-- Witness of C5: two hints in the directory `/etc/app` give the same run, in which
the default file is read first, the override path is then checked, and the override
is read. -/
theorem readConfig_file_locations_witness :
    readConfig (exampleEnv filesWithOverride) "/etc/app/anything.txt" =
      readConfig (exampleEnv filesWithOverride) "/etc/app/logger.yml" ∧
    (readConfig (exampleEnv filesWithOverride) "/etc/app/logger.yml").trace.take 4 =
      [Event.readFile ("/etc/app" ++ "/config.logger.yml"), Event.unmarshal baseDoc,
        Event.stat ("/etc/app" ++ "/config.logger.override.yml"),
        Event.readFile ("/etc/app" ++ "/config.logger.override.yml")] :=
  have h := readConfig_file_locations (exampleEnv filesWithOverride) "/etc/app/logger.yml"
  ⟨h.2.2.2.2.2.2 "/etc/app/anything.txt" (by decide),
    (h.2.2.2.2.2.1 baseDoc (some baseConfig) rfl rfl).2.2 () rfl⟩

/-- C6. Fatal on missing mandatory file: when the default file cannot be read,
`NewLogger` terminates the process with status 2 and returns no logger, whatever the
state of the override file. -/
theorem NewLogger_fatal_on_unreadable_default (env : Env B Z R ZL SL) (configPath : String)
    (e : String) (h1 : env.readFile (defaultPath env configPath) = Except.error e) :
    (NewLogger env configPath).outcome = Outcome.exited 2 ∧
    (∀ logger, (NewLogger env configPath).outcome ≠ Outcome.returned logger) ∧
    (Event.exit 2 : Event B) ∈ (NewLogger env configPath).trace := by
  have hrc : readConfig env configPath =
      ⟨[Event.readFile (defaultPath env configPath),
        Event.write Channel.stdout
          ("failed to read default config.logger configuration. error: " ++ e),
        Event.exit 2], Outcome.exited 2⟩ := by
    rw [readConfig_eq_run]
    simp [readConfigRun, h1]
  have hnl : (NewLogger env configPath).outcome = Outcome.exited 2 := by
    rw [NewLogger_eq_run]
    simp [newLoggerRun, hrc]
  refine ⟨hnl, ?_, ?_⟩
  · intro logger h
    rw [hnl] at h
    exact Outcome.noConfusion h
  · rw [NewLogger_eq_run]
    simp [newLoggerRun, hrc]

/-- Witness of C6: an empty directory. -/
theorem NewLogger_fatal_on_unreadable_default_witness :
    (NewLogger (exampleEnv filesNone) "/etc/app/logger.yml").outcome = Outcome.exited 2 :=
  (NewLogger_fatal_on_unreadable_default (exampleEnv filesNone) "/etc/app/logger.yml"
    "open /etc/app/config.logger.yml: no such file or directory" rfl).1

/-- C7. Fatal on malformed mandatory file: when the default file is readable but does
not decode, `NewLogger` terminates the process with status 2 and returns no logger,
which is the outcome of every run in which the default file cannot be read; the
override path is neither checked nor read. -/
theorem NewLogger_fatal_on_malformed_default (env : Env B Z R ZL SL) (configPath : String)
    (d : B) (e : String)
    (h1 : env.readFile (defaultPath env configPath) = Except.ok d)
    (h2 : env.unmarshal d none = Except.error e) :
    (NewLogger env configPath).outcome = Outcome.exited 2 ∧
    (∀ logger, (NewLogger env configPath).outcome ≠ Outcome.returned logger) ∧
    (∀ (env2 : Env B Z R ZL SL) (configPath2 e2 : String),
      env2.readFile (defaultPath env2 configPath2) = Except.error e2 →
      (NewLogger env configPath).outcome = (NewLogger env2 configPath2).outcome) ∧
    Event.stat (overridePath env configPath) ∉ (NewLogger env configPath).trace ∧
    Event.readFile (overridePath env configPath) ∉ (NewLogger env configPath).trace := by
  have hne := defaultPath_ne_overridePath env configPath
  have hrc : readConfig env configPath =
      ⟨[Event.readFile (defaultPath env configPath), Event.unmarshal d,
        Event.write Channel.stdout ("unable to decode config. error: " ++ e),
        Event.exit 2], Outcome.exited 2⟩ := by
    rw [readConfig_eq_run]
    simp [readConfigRun, h1, h2]
  have hnl : NewLogger env configPath =
      ⟨[Event.readFile (defaultPath env configPath), Event.unmarshal d,
        Event.write Channel.stdout ("unable to decode config. error: " ++ e),
        Event.exit 2], Outcome.exited 2⟩ := by
    rw [NewLogger_eq_run]
    simp [newLoggerRun, hrc]
  refine ⟨by rw [hnl], ?_, ?_, ?_, ?_⟩
  · intro logger h
    rw [hnl] at h
    exact Outcome.noConfusion h
  · intro env2 configPath2 e2 h
    rw [hnl, (exit_of_default_read_error env2 configPath2 e2 h)]
  · rw [hnl]
    simp
  · rw [hnl]
    simp [Ne.symm hne]

/-- Witness of C7: a malformed default file next to a valid override. -/
theorem NewLogger_fatal_on_malformed_default_witness :
    (NewLogger (exampleEnv filesMalformedDefault) "/etc/app/logger.yml").outcome =
      Outcome.exited 2 :=
  (NewLogger_fatal_on_malformed_default (exampleEnv filesMalformedDefault) "/etc/app/logger.yml"
    malformedDoc "yaml: line 1: did not find expected node content" rfl rfl).1

/-- C8. Fatal on logger construction failure: when `build` returns an error for the
resolved configuration, `NewLogger` emits a diagnostic and terminates the process with
status 2; and whenever `NewLogger` returns a logger, `build` returned no error and
the logger is the one built from the resolved configuration. -/
theorem NewLogger_fatal_on_build_failure (env : Env B Z R ZL SL) (configPath : String)
    (c : Option (config Z R))
    (hrc : (readConfig env configPath).outcome = Outcome.returned c) :
    (∀ err, env.build c = Except.error err →
      (NewLogger env configPath).outcome = Outcome.exited 2 ∧
      (∀ logger, (NewLogger env configPath).outcome ≠ Outcome.returned logger) ∧
      (NewLogger env configPath).trace = (readConfig env configPath).trace ++
        [Event.build, Event.write Channel.stdout ("Failed to compose zap logger : " ++ err),
          Event.exit 2]) ∧
    (∀ logger, (NewLogger env configPath).outcome = Outcome.returned logger →
      ∃ zapLogger, env.build c = Except.ok zapLogger ∧ logger = env.sugar zapLogger) := by
  constructor
  · intro err hb
    have hnl : NewLogger env configPath = ⟨(readConfig env configPath).trace ++
        [Event.build, Event.write Channel.stdout ("Failed to compose zap logger : " ++ err),
          Event.exit 2], Outcome.exited 2⟩ := by
      rw [NewLogger_eq_run]
      simp [newLoggerRun, hrc, hb]
    refine ⟨by rw [hnl], ?_, by rw [hnl]⟩
    intro logger h
    rw [hnl] at h
    exact Outcome.noConfusion h
  · intro logger h
    rw [NewLogger_eq_run] at h
    simp only [newLoggerRun, hrc] at h
    cases hb : env.build c with
    | error err =>
      rw [hb] at h
      exact Outcome.noConfusion h
    | ok zapLogger =>
      rw [hb] at h
      exact ⟨zapLogger, rfl, (Outcome.returned.inj h).symm⟩

/-- Witness of C8: the override selects the encoding `xml`, which `build` rejects. -/
theorem NewLogger_fatal_on_build_failure_witness :
    (NewLogger (exampleEnv filesXmlOverride) "/etc/app/logger.yml").outcome = Outcome.exited 2 :=
  ((NewLogger_fatal_on_build_failure (exampleEnv filesXmlOverride) "/etc/app/logger.yml"
    (some ⟨⟨"info", "xml", ["stdout"]⟩, ⟨"app.log", 10, 7, 3, true⟩⟩) rfl).1
    "no encoder registered for name xml" rfl).1

/-- C9. No default-only fallback when the override is bad: when the default file is
valid and the override exists, a failure to read the override or to decode it makes
`readConfig` terminate the process with status 2; no configuration is returned, in
particular not the one parsed from the default alone. -/
theorem readConfig_fatal_on_bad_override (env : Env B Z R ZL SL) (configPath : String)
    (d : B) (c1 : Option (config Z R)) (u : Unit)
    (h1 : env.readFile (defaultPath env configPath) = Except.ok d)
    (h2 : env.unmarshal d none = Except.ok c1)
    (h3 : env.stat (overridePath env configPath) = Except.ok u)
    (h4 : (∃ e, env.readFile (overridePath env configPath) = Except.error e) ∨
      (∃ o e, env.readFile (overridePath env configPath) = Except.ok o ∧
        env.unmarshal o c1 = Except.error e)) :
    (readConfig env configPath).outcome = Outcome.exited 2 ∧
    (∀ c, (readConfig env configPath).outcome ≠ Outcome.returned c) ∧
    (NewLogger env configPath).outcome = Outcome.exited 2 := by
  have hx : (readConfig env configPath).outcome = Outcome.exited 2 := by
    rw [readConfig_eq_run]
    rcases h4 with ⟨e, he⟩ | ⟨o, e, ho, he⟩
    · simp [readConfigRun, h1, h2, h3, he]
    · simp [readConfigRun, h1, h2, h3, ho, he]
  refine ⟨hx, ?_, ?_⟩
  · intro c h
    rw [hx] at h
    exact Outcome.noConfusion h
  · rw [NewLogger_eq_run]
    simp [newLoggerRun, hx]

/-- Witness of C9: a valid default file next to a malformed override. -/
theorem readConfig_fatal_on_bad_override_witness :
    (readConfig (exampleEnv filesMalformedOverride) "/etc/app/logger.yml").outcome =
      Outcome.exited 2 :=
  (readConfig_fatal_on_bad_override (exampleEnv filesMalformedOverride) "/etc/app/logger.yml"
    baseDoc (some baseConfig) () rfl rfl rfl
    (Or.inr ⟨malformedDoc, "yaml: line 1: did not find expected node content", rfl, rfl⟩)).1

/-- Counterexample of C10: in an empty directory `NewLogger` terminates with status 2
after writing its diagnostic to the standard output; nothing is written to the
standard error. -/
theorem NewLogger_diagnostic_on_stdout :
    NewLogger (exampleEnv filesNone) "/etc/app/logger.yml" =
      ⟨[Event.readFile "/etc/app/config.logger.yml",
        Event.write Channel.stdout
          "failed to read default config.logger configuration. error: open /etc/app/config.logger.yml: no such file or directory",
        Event.exit 2], Outcome.exited 2⟩ ∧
    ¬ DiagnosticsOnStderr (exampleEnv filesNone) "/etc/app/logger.yml" := by
  have hnl : NewLogger (exampleEnv filesNone) "/etc/app/logger.yml" =
      ⟨[Event.readFile "/etc/app/config.logger.yml",
        Event.write Channel.stdout
          "failed to read default config.logger configuration. error: open /etc/app/config.logger.yml: no such file or directory",
        Event.exit 2], Outcome.exited 2⟩ := rfl
  refine ⟨hnl, ?_⟩
  intro h
  have h2 := (h 2 (by rw [hnl])).2
    "failed to read default config.logger configuration. error: open /etc/app/config.logger.yml: no such file or directory"
  rw [hnl] at h2
  exact h2 (by simp)

/-- C10, amended. Diagnostics go to the standard output: on every run of `readConfig`
or `NewLogger` that terminates the process, the status is 2, the last two operations
are the write of a diagnostic message to the standard output and the exit, and
nothing is written to the standard error. -/
theorem fatal_diagnostic_on_stdout (env : Env B Z R ZL SL) (configPath : String) :
    (∀ code, (readConfig env configPath).outcome = Outcome.exited code →
      code = 2 ∧
      (∃ pre msg, (readConfig env configPath).trace =
        pre ++ [Event.write Channel.stdout msg, Event.exit 2]) ∧
      (∀ msg, Event.write Channel.stderr msg ∉ (readConfig env configPath).trace)) ∧
    (∀ code, (NewLogger env configPath).outcome = Outcome.exited code →
      code = 2 ∧
      (∃ pre msg, (NewLogger env configPath).trace =
        pre ++ [Event.write Channel.stdout msg, Event.exit 2]) ∧
      (∀ msg, Event.write Channel.stderr msg ∉ (NewLogger env configPath).trace)) := by
  have hrc := readConfig_exit_shape env configPath
  have hno := readConfig_no_stderr env configPath
  refine ⟨fun code h => ⟨(hrc code h).1, (hrc code h).2, hno⟩, ?_⟩
  intro code h
  rw [NewLogger_eq_run] at h ⊢
  simp only [newLoggerRun] at h ⊢
  cases ho : (readConfig env configPath).outcome with
  | exited c =>
    rw [ho] at h
    simp only at h ⊢
    have hc : c = code := Outcome.exited.inj h
    subst hc
    exact ⟨(hrc c ho).1, (hrc c ho).2, hno⟩
  | returned cfg =>
    rw [ho] at h
    simp only at h ⊢
    cases hb : env.build cfg with
    | error err =>
      rw [hb] at h
      simp only at h ⊢
      refine ⟨(Outcome.exited.inj h).symm, ⟨(readConfig env configPath).trace ++ [Event.build],
        "Failed to compose zap logger : " ++ err, ?_⟩, ?_⟩
      · simp
      · intro msg hm
        simp only [List.mem_append, List.mem_cons, List.mem_singleton, List.not_mem_nil] at hm
        rcases hm with hm | hm
        · exact hno msg hm
        · simp at hm
    | ok z =>
      rw [hb] at h
      exact Outcome.noConfusion h

/-- Witness of C10, amended: an empty directory. -/
theorem fatal_diagnostic_on_stdout_witness :
    ∃ pre msg, (NewLogger (exampleEnv filesNone) "/etc/app/logger.yml").trace =
      pre ++ [Event.write Channel.stdout msg, Event.exit 2] :=
  ((fatal_diagnostic_on_stdout (exampleEnv filesNone) "/etc/app/logger.yml").2 2 rfl).2.1

end Logger
